import Mathlib

/-!
Verification of the mangadex-api request/response pipeline specification
against the repository source.

Part 1 — types embedded directly from the source:
  * `ResultType`   (mangadex-api-types/src/result.rs)
  * `MangaState`   (mangadex-api-types/src/manga_state.rs)
  * `ListUser`     (src/v5/user/list.rs) and its serde query serialization

Part 2 — the dispatch pipeline (credential store, envelope parsing, send),
modelled from the spec where the core engine source is not present.
-/

namespace MangadexApi

/-- Enum `ResultType` from mangadex-api-types/src/result.rs: the envelope result
discriminator, a closed two-variant enum serialized with
`rename_all = "snake_case"`. -/
inductive ResultType where
  | Ok
  | Error
  deriving DecidableEq, Repr

/-- serde `Serialize` for `ResultType` under `rename_all = "snake_case"`:
each variant becomes its lowercase-snake tag string. -/
def ResultType.serialize : ResultType → String
  | ResultType.Ok => "ok"
  | ResultType.Error => "error"

/-- serde `Deserialize` for `ResultType`: matches the input string against the
declared snake_case tags; any other string is a hard decode error (`none`).
The derive carries no `other` fallback variant and no `default` attribute. -/
def ResultType.deserialize (s : String) : Option ResultType :=
  if s = "ok" then some ResultType.Ok
  else if s = "error" then some ResultType.Error
  else none

/-- Rust `impl Default for ResultType` from result.rs: the default is `Self::Ok`. -/
def ResultType.defaultValue : ResultType := ResultType.Ok

instance : Inhabited ResultType := ⟨ResultType.defaultValue⟩

/-- Enum `MangaState` from mangadex-api-types/src/manga_state.rs: closed
four-variant enum serialized with `rename_all = "snake_case"`. -/
inductive MangaState where
  | Draft
  | Published
  | Rejected
  | Submitted
  deriving DecidableEq, Repr

/-- serde `Serialize` for `MangaState` under `rename_all = "snake_case"`. -/
def MangaState.serialize : MangaState → String
  | MangaState.Draft => "draft"
  | MangaState.Published => "published"
  | MangaState.Rejected => "rejected"
  | MangaState.Submitted => "submitted"

/-- serde `Deserialize` for `MangaState`: matches the declared snake_case
tags; any other string is a hard decode error (`none`). No `other` fallback,
no `default` attribute. -/
def MangaState.deserialize (s : String) : Option MangaState :=
  if s = "draft" then some MangaState.Draft
  else if s = "published" then some MangaState.Published
  else if s = "rejected" then some MangaState.Rejected
  else if s = "submitted" then some MangaState.Submitted
  else none

/-- Type `HttpClientRef` as it appears in the endpoint structs: an internal client
handle that serde skips entirely (`#[serde(skip)]`); its content is
irrelevant to serialization, modelled as an opaque tag. -/
structure HttpClientRef where
  tag : Nat
  deriving DecidableEq, Repr

/-- Type `UserSortOrder` (external to the excerpt): a sort-order value whose only
role in `ListUser` serialization is to appear under the key `order` when
present; modelled by its serialized query-string form. -/
structure UserSortOrder where
  value : String
  deriving DecidableEq, Repr

/-- A value position in the serialized query form of an endpoint struct. -/
inductive QueryValue where
  | num (n : Nat)
  | str (s : String)
  | list (xs : List String)
  deriving DecidableEq, Repr

/-- Struct `ListUser` from src/v5/user/list.rs: the user-list endpoint struct.
Fields in declaration order: `http_client` (serde skip), `limit`, `offset`
(both `Option<u32>`, `skip_serializing_if = "Option::is_none"`), `user_ids`
(`Vec<Uuid>`, renamed `ids`), `username` (`Option<&str>`, skip-if-none),
`order` (`Option<UserSortOrder>`, skip-if-none). UUIDs are modelled by their
string form. -/
structure ListUser where
  http_client : HttpClientRef
  limit : Option Nat
  offset : Option Nat
  user_ids : List String
  username : Option String
  order : Option UserSortOrder
  deriving DecidableEq, Repr

/-- serde `Serialize` of `ListUser` to query fields, following the derive
attributes: `http_client` is skipped; `limit`, `offset`, `username`, `order`
are emitted only when `Some`; `user_ids` is always emitted under the renamed
key `ids` (even when empty). Fields are emitted in declaration order. -/
def ListUser.serializeQuery (u : ListUser) : List (String × QueryValue) :=
  (match u.limit with
    | some n => [("limit", QueryValue.num n)]
    | none => []) ++
  (match u.offset with
    | some n => [("offset", QueryValue.num n)]
    | none => []) ++
  [("ids", QueryValue.list u.user_ids)] ++
  (match u.username with
    | some s => [("username", QueryValue.str s)]
    | none => []) ++
  (match u.order with
    | some o => [("order", QueryValue.str o.value)]
    | none => [])

/-- Struct `AuthTokens` as constructed in the source tests
(mangadex-api/src/v5/rating/delete_for_manga.rs, lines 88-93): a session
token and a refresh token, both mandatory strings — a value of this type
always carries both. -/
structure AuthTokens where
  session : String
  refresh : String
  deriving DecidableEq, Repr

/-- The credential store content: either a whole `AuthTokens` pair or
nothing (unauthenticated). -/
abbrev CredStore := Option AuthTokens

/-- The session token visible in the store, if any. -/
def sessionOf : CredStore → Option String
  | some t => some t.session
  | none => none

/-- The refresh token visible in the store, if any. -/
def refreshOf : CredStore → Option String
  | some t => some t.refresh
  | none => none

/-- Modelled from the spec: Credential Store `set` (§4.2, source store code
absent from the excerpt) — atomic whole-pair replacement. -/
def CredStore.setPair (_ : CredStore) (t : AuthTokens) : CredStore := some t

/-- Modelled from the spec: Credential Store `clear` (§4.2, source store code
absent from the excerpt) — atomic removal of the whole pair. -/
def CredStore.clearPair (_ : CredStore) : CredStore := none

/-- Struct `ApiError` from the wire envelope: id (UUID modelled as string), status,
optional title, optional detail. -/
structure ApiError where
  id : String
  status : Nat
  title : Option String
  detail : Option String
  deriving DecidableEq, Repr

/-- Modelled from the spec: the wire envelope presented to `parse_envelope`
(§3, §4.1; the envelope-decoding source is absent from the excerpt).
`result` is the raw discriminator string; `errors` is the server-reported
error array (in wire order); `payload` is what decoding the remaining bytes
against the declared success type would yield (`none` = structural
mismatch). -/
structure RawEnvelope (α : Type) where
  result : String
  errors : List ApiError
  payload : Option α
  deriving DecidableEq, Repr

/-- Outcome of decoding one envelope. -/
inductive DecodeOutcome (α : Type) where
  | success (payload : α)
  | apiErrors (errors : List ApiError)
  | decodeFailure
  deriving DecidableEq, Repr

/-- Modelled from the spec: `parse_envelope` (§4.1; the envelope-decoding
source is absent from the excerpt). Decodes the discriminator first; on the
error tag yields the `errors` sequence without touching the success payload;
on the success tag uses the declared-type decode; any other tag is a hard
decode failure. -/
def parse_envelope {α : Type} (raw : RawEnvelope α) : DecodeOutcome α :=
  if raw.result = "error" then DecodeOutcome.apiErrors raw.errors
  else if raw.result = "ok" then
    match raw.payload with
    | some p => DecodeOutcome.success p
    | none => DecodeOutcome.decodeFailure
  else DecodeOutcome.decodeFailure

/-- Modelled from the spec: the Request Descriptor contract (§3, §4.5; the
`endpoint!` macro expansion is absent from the excerpt): verb, resolved
path, auth flag, and the serialized body when the content mode carries
one. -/
structure Descriptor where
  method : String
  path : String
  auth_required : Bool
  body : Option String
  deriving DecidableEq, Repr

/-- The transport-level request built by the dispatch engine. -/
structure HttpRequest where
  method : String
  path : String
  authorization : Option String
  body : Option String
  deriving DecidableEq, Repr

/-- Answer of the transport for one request: a wire envelope or a
network-level failure. -/
inductive WireAnswer (α : Type) where
  | envelope (raw : RawEnvelope α)
  | failure
  deriving DecidableEq, Repr

/-- One transport call recorded in a send trace: an HTTP call for the
descriptor, or the dedicated refresh call carrying the refresh token in its
body (§4.4, §6). -/
inductive TransportCall where
  | http (req : HttpRequest)
  | refreshCall (refreshToken : String)
  deriving DecidableEq, Repr

/-- Modelled from the spec: the transport collaborator (§6) plus the refresh
endpoint behaviour (§4.4): `respond` answers the descriptor's request;
`refreshResult` maps the refresh token sent to the new pair on success or
`none` on refresh failure. -/
structure Transport (α : Type) where
  respond : HttpRequest → WireAnswer α
  refreshResult : String → Option AuthTokens

/-- Result of `send` as seen by the caller (§4.3, §7 error taxonomy). -/
inductive DispatchResult (α : Type) where
  | ok (payload : α)
  | missingTokens
  | transportFailure
  | decodeFailure
  | api (errors : List ApiError)
  deriving DecidableEq, Repr

/-- Conversion from a decoded envelope to the caller-visible result. -/
def DecodeOutcome.toResult {α : Type} : DecodeOutcome α → DispatchResult α
  | DecodeOutcome.success p => DispatchResult.ok p
  | DecodeOutcome.apiErrors e => DispatchResult.api e
  | DecodeOutcome.decodeFailure => DispatchResult.decodeFailure

/-- The caller-visible result of one transport answer (steps 3-4 of §4.3). -/
def WireAnswer.toResult {α : Type} : WireAnswer α → DispatchResult α
  | WireAnswer.envelope raw => (parse_envelope raw).toResult
  | WireAnswer.failure => DispatchResult.transportFailure

/-- Whether a decoded envelope is an error whose contained status indicates
an authentication failure (§4.3 step 5): some reported error has HTTP
status 401. -/
def DecodeOutcome.isAuthExpired {α : Type} : DecodeOutcome α → Bool
  | DecodeOutcome.apiErrors errs => errs.any (fun e => e.status = 401)
  | _ => false

/-- Modelled from the spec: step 2 of §4.3 (the dispatch-engine source is
absent from the excerpt) — build the transport request; the
`Authorization: Bearer <session>` header is attached by the engine exactly
when the descriptor requires auth and the store holds a pair; descriptors
themselves carry no header field. -/
def buildRequest (d : Descriptor) (store : CredStore) : HttpRequest :=
  { method := d.method
    path := d.path
    authorization :=
      if d.auth_required then store.map (fun t => "Bearer " ++ t.session)
      else none
    body := d.body }

/-- What one `send` produced: the caller's result, the final credential
store, and the ordered list of transport calls issued. -/
structure SendOutcome (α : Type) where
  result : DispatchResult α
  store : CredStore
  calls : List TransportCall
  deriving DecidableEq, Repr

/-- Modelled from the spec: the Dispatch Engine `send` algorithm (§4.3,
steps 1-6, with the Auth Refresh Coordinator of §4.4 interposed; the engine
source is absent from the excerpt). Fast-fails with `missingTokens` before
any transport call when auth is required and the store is empty; otherwise
builds and executes the request; on an authentication-expired error
envelope with auth required and a refresh token stored, invokes the refresh
once and, on refresh success, replaces the store with the new pair and
re-executes the request exactly once more with the new credentials; a
refresh failure leaves the store untouched and surfaces the original
failure; it never retries a second time. -/
def send {α : Type} (d : Descriptor) (tr : Transport α) (store : CredStore) :
    SendOutcome α :=
  if d.auth_required && store.isNone then
    { result := DispatchResult.missingTokens, store := store, calls := [] }
  else
    let req := buildRequest d store
    match tr.respond req with
    | WireAnswer.failure =>
      { result := DispatchResult.transportFailure, store := store
        calls := [TransportCall.http req] }
    | WireAnswer.envelope raw =>
      let outcome := parse_envelope raw
      match store with
      | none =>
        { result := outcome.toResult, store := store
          calls := [TransportCall.http req] }
      | some tokens =>
        if d.auth_required && outcome.isAuthExpired then
          match tr.refreshResult tokens.refresh with
          | none =>
            { result := outcome.toResult, store := some tokens
              calls := [TransportCall.http req,
                        TransportCall.refreshCall tokens.refresh] }
          | some newPair =>
            let req2 := buildRequest d (some newPair)
            { result := (tr.respond req2).toResult, store := some newPair
              calls := [TransportCall.http req,
                        TransportCall.refreshCall tokens.refresh,
                        TransportCall.http req2] }
        else
          { result := outcome.toResult, store := some tokens
            calls := [TransportCall.http req] }

/-- The `RecoverAccount` endpoint declaration from src/v5/account/recover.rs:
`POST "/account/recover"`, content mode `#[body]` with NO auth flag. The
body is the serialized `{"email": ...}` form. -/
def recoverAccountDescriptor (emailBody : String) : Descriptor :=
  { method := "POST", path := "/account/recover", auth_required := false
    body := some emailBody }

/-- The `ListUser` endpoint declaration from src/v5/user/list.rs:
`GET "/user"`, content mode `#[query auth]` — authentication required, no
body (the struct serializes to the query string). -/
def listUserDescriptor : Descriptor :=
  { method := "GET", path := "/user", auth_required := true, body := none }

/-- The `DeleteMangaRating` endpoint declaration from
src/mangadex-api/src/v5/rating/delete_for_manga.rs:
`DELETE ("/rating/{}", manga_id)`, `#[no_data auth]` — authentication
required, no body; the path has the manga id substituted. -/
def deleteMangaRatingDescriptor (mangaId : String) : Descriptor :=
  { method := "DELETE", path := "/rating/" ++ mangaId, auth_required := true
    body := none }

/-- The both-or-neither credential invariant: a session token is visible in
the store exactly when a refresh token is. -/
def pairInvariant (s : CredStore) : Prop :=
  (sessionOf s).isSome = (refreshOf s).isSome

/-- C7: for every value of the closed enumerations `MangaState` and
`ResultType`, serialization produces the corresponding lowercase-snake
string, and deserializing that string yields back the original value: the
serialize-then-deserialize round-trip is the identity. -/
theorem mangaState_resultType_serde_roundTrip :
    (∀ x : MangaState, MangaState.deserialize (MangaState.serialize x) = some x) ∧
    (∀ r : ResultType, ResultType.deserialize (ResultType.serialize r) = some r) ∧
    MangaState.serialize MangaState.Draft = "draft" ∧
    MangaState.serialize MangaState.Published = "published" ∧
    MangaState.serialize MangaState.Rejected = "rejected" ∧
    MangaState.serialize MangaState.Submitted = "submitted" ∧
    ResultType.serialize ResultType.Ok = "ok" ∧
    ResultType.serialize ResultType.Error = "error" := by
  refine ⟨fun x => ?_, fun r => ?_, rfl, rfl, rfl, rfl, rfl, rfl⟩
  · cases x <;> decide
  · cases r <;> decide

/-- C5: for every input string that is not one of the declared
lowercase-snake tag values of `ResultType` (the envelope result
discriminator) or of `MangaState`, deserialization fails hard (`none`):
no silent fallback to a default value during parsing. -/
theorem unknown_tag_is_hard_decode_error :
    (∀ s : String, s ≠ "ok" → s ≠ "error" → ResultType.deserialize s = none) ∧
    (∀ s : String, s ≠ "draft" → s ≠ "published" → s ≠ "rejected" →
      s ≠ "submitted" → MangaState.deserialize s = none) := by
  constructor
  · intro s h1 h2
    simp [ResultType.deserialize, h1, h2]
  · intro s h1 h2 h3 h4
    simp [MangaState.deserialize, h1, h2, h3, h4]

/-- Witness for C5: the concrete non-tag strings decode to `none`. -/
theorem unknown_tag_is_hard_decode_error_witness :
    ResultType.deserialize "draft" = none ∧
    MangaState.deserialize "ok" = none :=
  ⟨unknown_tag_is_hard_decode_error.1 "draft" (by decide) (by decide),
   unknown_tag_is_hard_decode_error.2 "ok" (by decide) (by decide) (by decide)
     (by decide)⟩

/-- C8: the default value of the result discriminator is the success tag
`Ok`; parsing never substitutes it for unrecognized input — the only input
string whose parse yields the default value is the genuine tag `"ok"`. -/
theorem resultType_default_is_ok :
    ResultType.defaultValue = ResultType.Ok ∧
    (∀ s : String, s ≠ "ok" → s ≠ "error" →
      ResultType.deserialize s ≠ some ResultType.defaultValue) ∧
    (∀ s : String, ResultType.deserialize s = some ResultType.defaultValue →
      s = "ok") := by
  refine ⟨rfl, ?_, ?_⟩
  · intro s h1 h2
    simp [ResultType.deserialize, h1, h2]
  · intro s h
    by_cases h1 : s = "ok"
    · exact h1
    · by_cases h2 : s = "error" <;>
        simp [ResultType.deserialize, h1, h2, ResultType.defaultValue] at h

/-- Witness for C8: the default is `Ok`, and the concrete non-tag string
`"submitted"` does not parse to the default. -/
theorem resultType_default_is_ok_witness :
    ResultType.defaultValue = ResultType.Ok ∧
    ResultType.deserialize "submitted" ≠ some ResultType.defaultValue :=
  ⟨resultType_default_is_ok.1,
   resultType_default_is_ok.2.1 "submitted" (by decide) (by decide)⟩

/-- C10: serializing a `ListUser` to the query string omits each of
`limit`, `offset`, `username`, `order` whenever that field is `None`, emits
`user_ids` under the key `"ids"` always (even when empty), and emits no key
outside the five declared serialized fields — in particular never the
internal `http_client` field. -/
theorem listUser_query_serialization (u : ListUser) :
    (u.limit = none → ∀ v, ("limit", v) ∉ u.serializeQuery) ∧
    (u.offset = none → ∀ v, ("offset", v) ∉ u.serializeQuery) ∧
    (u.username = none → ∀ v, ("username", v) ∉ u.serializeQuery) ∧
    (u.order = none → ∀ v, ("order", v) ∉ u.serializeQuery) ∧
    ("ids", QueryValue.list u.user_ids) ∈ u.serializeQuery ∧
    (∀ k v, (k, v) ∈ u.serializeQuery →
      k = "limit" ∨ k = "offset" ∨ k = "ids" ∨ k = "username" ∨ k = "order") := by
  obtain ⟨hc, lim, off, ids, un, ord⟩ := u
  cases lim <;> cases off <;> cases un <;> cases ord <;>
    simp [ListUser.serializeQuery] <;>
    intro k v hkv <;> aesop

/-- Witness for C10: the default-shaped `ListUser` (all optional fields
absent, no ids added) serializes to exactly the `ids` entry with an empty
list, and carries no `limit` key. -/
theorem listUser_query_serialization_witness :
    (∀ v, ("limit", v) ∉
      ListUser.serializeQuery
        { http_client := { tag := 0 }, limit := none, offset := none
          user_ids := [], username := none, order := none }) ∧
    ("ids", QueryValue.list []) ∈
      ListUser.serializeQuery
        { http_client := { tag := 0 }, limit := none, offset := none
          user_ids := [], username := none, order := none } :=
  ⟨(listUser_query_serialization _).1 rfl,
   (listUser_query_serialization _).2.2.2.2.1⟩

/-- C6: the credential store holds either both a session token and a
refresh token or neither, in every state: initially, after a whole-pair
`set` (login / refresh replacement), after `clear` (logout), and after any
`send` (including one that refreshed). -/
theorem credStore_both_or_neither {α : Type} (d : Descriptor)
    (tr : Transport α) (s : CredStore) (t : AuthTokens) :
    pairInvariant s ∧ pairInvariant (CredStore.setPair s t) ∧
    pairInvariant (CredStore.clearPair s) ∧
    pairInvariant ((send d tr s).store) := by
  have inv : ∀ c : CredStore, pairInvariant c := by
    intro c
    cases c <;> rfl
  exact ⟨inv s, inv _, inv _, inv _⟩

/-- C1: sending an authenticated descriptor with no stored credentials
fails immediately with `missingTokens`, issues zero transport calls and
leaves the store untouched. -/
theorem auth_required_empty_store_missing_tokens {α : Type}
    (d : Descriptor) (tr : Transport α) (h : d.auth_required = true) :
    (send d tr none).result = DispatchResult.missingTokens ∧
    (send d tr none).calls = [] ∧
    (send d tr none).store = none := by
  refine ⟨?_, ?_, ?_⟩ <;> simp [send, h]

/-- A transport stub answering every request with a plain success
envelope carrying payload `0`. -/
def okStubTransport : Transport Nat :=
  { respond := fun _ =>
      WireAnswer.envelope { result := "ok", errors := [], payload := some 0 }
    refreshResult := fun _ => none }

/-- Witness for C1: the `DeleteMangaRating` descriptor with an empty store
returns `missingTokens` with an empty call trace. -/
theorem auth_required_empty_store_missing_tokens_witness :
    (send (deleteMangaRatingDescriptor "f9c33607") okStubTransport none).result =
      DispatchResult.missingTokens ∧
    (send (deleteMangaRatingDescriptor "f9c33607") okStubTransport none).calls =
      [] ∧
    (send (deleteMangaRatingDescriptor "f9c33607") okStubTransport none).store =
      none :=
  auth_required_empty_store_missing_tokens (deleteMangaRatingDescriptor "f9c33607")
    okStubTransport rfl

/-- C9: for a descriptor without the auth flag (such as `RecoverAccount`,
`POST /account/recover`), `send` never returns `missingTokens` — whatever
the store holds, it issues exactly one transport call carrying no
`Authorization` header and returns the decoded envelope outcome of that
call's answer. -/
theorem no_auth_flag_single_call_no_header {α : Type} (d : Descriptor)
    (tr : Transport α) (store : CredStore) (h : d.auth_required = false) :
    (send d tr store).result ≠ DispatchResult.missingTokens ∧
    (send d tr store).calls = [TransportCall.http (buildRequest d store)] ∧
    (buildRequest d store).authorization = none ∧
    (send d tr store).result = (tr.respond (buildRequest d store)).toResult := by
  have hb : (buildRequest d store).authorization = none := by
    simp [buildRequest, h]
  have hsend : send d tr store =
      { result := (tr.respond (buildRequest d store)).toResult, store := store
        calls := [TransportCall.http (buildRequest d store)] } := by
    cases hresp : tr.respond (buildRequest d store) with
    | failure =>
      cases store <;> simp [send, h, hresp, WireAnswer.toResult]
    | envelope raw =>
      cases store <;> simp [send, h, hresp, WireAnswer.toResult]
  have hres : ∀ a : WireAnswer α, a.toResult ≠ DispatchResult.missingTokens := by
    intro a
    cases a with
    | failure => simp [WireAnswer.toResult]
    | envelope raw =>
      cases hout : parse_envelope raw <;>
        simp [WireAnswer.toResult, hout, DecodeOutcome.toResult]
  rw [hsend]
  exact ⟨hres _, rfl, hb, rfl⟩

/-- Witness for C9: the `RecoverAccount` descriptor with an empty store
performs one header-free transport call and returns the decoded success. -/
theorem no_auth_flag_single_call_no_header_witness :
    (send (recoverAccountDescriptor "email") okStubTransport none).result ≠
      DispatchResult.missingTokens ∧
    (send (recoverAccountDescriptor "email") okStubTransport none).calls =
      [TransportCall.http
        (buildRequest (recoverAccountDescriptor "email") none)] ∧
    (buildRequest (recoverAccountDescriptor "email") none).authorization =
      none :=
  ⟨(no_auth_flag_single_call_no_header (recoverAccountDescriptor "email")
      okStubTransport none rfl).1,
   (no_auth_flag_single_call_no_header (recoverAccountDescriptor "email")
      okStubTransport none rfl).2.1,
   (no_auth_flag_single_call_no_header (recoverAccountDescriptor "email")
      okStubTransport none rfl).2.2.1⟩

/-- C3: an envelope whose discriminator is the error tag decodes to exactly
its `errors` array — same elements, order and length — independently of the
success payload (which is never consulted); and a `send` whose stored-token
request is answered by such an envelope (with no authentication-expired
status, so no refresh interposes) returns `api` with that exact array. -/
theorem error_envelope_exact_errors {α : Type} (errs : List ApiError)
    (p q : Option α) (d : Descriptor) (tr : Transport α) (t : AuthTokens)
    (hresp : tr.respond (buildRequest d (some t)) =
      WireAnswer.envelope { result := "error", errors := errs, payload := p })
    (hstatus : errs.any (fun e => e.status = 401) = false) :
    parse_envelope { result := "error", errors := errs, payload := p } =
      DecodeOutcome.apiErrors errs ∧
    parse_envelope { result := "error", errors := errs, payload := p } =
      parse_envelope { result := "error", errors := errs, payload := q } ∧
    (send d tr (some t)).result = DispatchResult.api errs := by
  refine ⟨by simp [parse_envelope], by simp [parse_envelope], ?_⟩
  simp [send, hresp, parse_envelope, DecodeOutcome.isAuthExpired, hstatus,
    DecodeOutcome.toResult]

/-- The single error of the 400 "Invalid limit" scenario from the
`list_manga_handles_400` test. -/
def invalidLimitError : ApiError :=
  { id := "00000000-0000-0000-0000-000000000001", status := 400
    title := some "Invalid limit", detail := some "Limit must be between 1 and 100" }

/-- A transport stub answering every request with the 400 "Invalid limit"
error envelope. -/
def invalidLimitTransport : Transport Nat :=
  { respond := fun _ =>
      WireAnswer.envelope
        { result := "error", errors := [invalidLimitError], payload := none }
    refreshResult := fun _ => none }

/-- Witness for C3: the `GET /user` scenario with the 400 envelope returns
`api` holding exactly the one input error. -/
theorem error_envelope_exact_errors_witness :
    (send listUserDescriptor invalidLimitTransport
      (some { session := "sessiontoken", refresh := "refreshtoken" })).result =
      DispatchResult.api [invalidLimitError] :=
  (error_envelope_exact_errors [invalidLimitError] none none listUserDescriptor
    invalidLimitTransport { session := "sessiontoken", refresh := "refreshtoken" }
    rfl (by decide)).2.2

/-- C4: under an authenticated send with stored credentials, every issued
HTTP request carries `Authorization: Bearer <session>` where the session is
exactly the token in the store at issue time: the first request bears the
originally stored session, and any retried request bears the session of the
refreshed pair that the store then holds. The header is computed by
`buildRequest` from the store alone — descriptors carry no header field. -/
theorem authenticated_send_bearer_header {α : Type} (d : Descriptor)
    (tr : Transport α) (t : AuthTokens) (h : d.auth_required = true) :
    (buildRequest d (some t)).authorization = some ("Bearer " ++ t.session) ∧
    ∀ req, TransportCall.http req ∈ (send d tr (some t)).calls →
      (req = buildRequest d (some t) ∧
        req.authorization = some ("Bearer " ++ t.session)) ∨
      (∃ np, tr.refreshResult t.refresh = some np ∧
        req = buildRequest d (some np) ∧
        req.authorization = some ("Bearer " ++ np.session) ∧
        (send d tr (some t)).store = some np) := by
  have hb : ∀ s : AuthTokens, (buildRequest d (some s)).authorization =
      some ("Bearer " ++ s.session) := by
    intro s
    simp [buildRequest, h]
  refine ⟨hb t, ?_⟩
  intro req hmem
  cases hresp : tr.respond (buildRequest d (some t)) with
  | failure =>
    have hsend : (send d tr (some t)).calls =
        [TransportCall.http (buildRequest d (some t))] := by
      simp [send, h, hresp]
    rw [hsend] at hmem
    simp at hmem
    exact Or.inl ⟨hmem, hmem ▸ hb t⟩
  | envelope raw =>
    by_cases hexp : (parse_envelope raw).isAuthExpired = true
    · cases href : tr.refreshResult t.refresh with
      | none =>
        have hsend : (send d tr (some t)).calls =
            [TransportCall.http (buildRequest d (some t)),
             TransportCall.refreshCall t.refresh] := by
          simp [send, h, hresp, hexp, href]
        rw [hsend] at hmem
        simp at hmem
        exact Or.inl ⟨hmem, hmem ▸ hb t⟩
      | some np =>
        have hsend : send d tr (some t) =
            { result := (tr.respond (buildRequest d (some np))).toResult
              store := some np
              calls := [TransportCall.http (buildRequest d (some t)),
                        TransportCall.refreshCall t.refresh,
                        TransportCall.http (buildRequest d (some np))] } := by
          simp [send, h, hresp, hexp, href]
        rw [hsend] at hmem
        simp at hmem
        rcases hmem with h1 | h2
        · exact Or.inl ⟨h1, h1 ▸ hb t⟩
        · exact Or.inr ⟨np, rfl, h2, h2 ▸ hb np, by rw [hsend]⟩
    · rw [Bool.not_eq_true] at hexp
      have hsend : (send d tr (some t)).calls =
          [TransportCall.http (buildRequest d (some t))] := by
        simp [send, h, hresp, hexp]
      rw [hsend] at hmem
      simp at hmem
      exact Or.inl ⟨hmem, hmem ▸ hb t⟩

/-- Witness for C4: the authenticated `GET /user` send with the stored pair
issues its request with header value `Bearer sessiontoken`. -/
theorem authenticated_send_bearer_header_witness :
    (buildRequest listUserDescriptor
      (some { session := "sessiontoken", refresh := "refreshtoken" })).authorization =
      some ("Bearer " ++ "sessiontoken") :=
  (authenticated_send_bearer_header listUserDescriptor okStubTransport
    { session := "sessiontoken", refresh := "refreshtoken" } rfl).1

/-- C2: an authenticated send whose first answer is an error envelope with
an authentication-expired status, while a refresh token is stored and the
refresh yields a new pair, performs exactly three transport calls —
original request, refresh call, one retry built with the new session token
— leaves the new pair in the store, and returns the second answer's
outcome verbatim (whatever it is: no second retry, no loop). -/
theorem auth_expired_refresh_retry_once {α : Type} (d : Descriptor)
    (tr : Transport α) (t np : AuthTokens) (raw : RawEnvelope α)
    (h : d.auth_required = true)
    (hresp : tr.respond (buildRequest d (some t)) = WireAnswer.envelope raw)
    (herr : raw.result = "error")
    (hstatus : raw.errors.any (fun e => e.status = 401) = true)
    (href : tr.refreshResult t.refresh = some np) :
    send d tr (some t) =
      { result := (tr.respond (buildRequest d (some np))).toResult
        store := some np
        calls := [TransportCall.http (buildRequest d (some t)),
                  TransportCall.refreshCall t.refresh,
                  TransportCall.http (buildRequest d (some np))] } ∧
    (buildRequest d (some np)).authorization = some ("Bearer " ++ np.session) ∧
    (send d tr (some t)).calls.length = 3 := by
  have hexp : (parse_envelope raw).isAuthExpired = true := by
    simp [parse_envelope, herr, DecodeOutcome.isAuthExpired, hstatus]
  have hsend : send d tr (some t) =
      { result := (tr.respond (buildRequest d (some np))).toResult
        store := some np
        calls := [TransportCall.http (buildRequest d (some t)),
                  TransportCall.refreshCall t.refresh,
                  TransportCall.http (buildRequest d (some np))] } := by
    simp [send, h, hresp, hexp, href]
  exact ⟨hsend, by simp [buildRequest, h], by rw [hsend]; rfl⟩

/-- The 401 error envelope answered to requests still bearing the expired
session token. -/
def expiredSessionEnvelope : RawEnvelope Nat :=
  { result := "error"
    errors := [{ id := "00000000-0000-0000-0000-000000000002", status := 401
                 title := some "Unauthorized", detail := none }]
    payload := none }

/-- A transport stub for the refresh scenario: requests bearing the old
session token get the 401 envelope; requests bearing anything else get a
success envelope; the refresh endpoint exchanges the old refresh token for
the pair `{newS, newR}`. -/
def refreshScenarioTransport : Transport Nat :=
  { respond := fun req =>
      if req.authorization = some "Bearer oldS" then
        WireAnswer.envelope expiredSessionEnvelope
      else
        WireAnswer.envelope { result := "ok", errors := [], payload := some 7 }
    refreshResult := fun s =>
      if s = "oldR" then some { session := "newS", refresh := "newR" }
      else none }

/-- Witness for C2: in the concrete refresh scenario the trace has exactly
three calls, the store ends with the new pair, and the result is the
decoded success of the retried request. -/
theorem auth_expired_refresh_retry_once_witness :
    (send listUserDescriptor refreshScenarioTransport
      (some { session := "oldS", refresh := "oldR" })).calls.length = 3 ∧
    (send listUserDescriptor refreshScenarioTransport
      (some { session := "oldS", refresh := "oldR" })).store =
      some { session := "newS", refresh := "newR" } ∧
    (send listUserDescriptor refreshScenarioTransport
      (some { session := "oldS", refresh := "oldR" })).result =
      DispatchResult.ok 7 := by
  have h := auth_expired_refresh_retry_once listUserDescriptor
    refreshScenarioTransport { session := "oldS", refresh := "oldR" }
    { session := "newS", refresh := "newR" } expiredSessionEnvelope rfl
    (by decide) rfl (by decide) (by decide)
  exact ⟨h.2.2, by rw [h.1], by rw [h.1]; decide⟩

end MangadexApi
